import Mathlib

/-!
Verification development for the realtime channel client and TTL caches of
the squadx-live desktop backend. The definitions below are a shallow
embedding of the Rust source under src/apps/desktop-tauri/src-tauri/src
(cache.rs, realtime.rs, chat_realtime.rs): machine clock instants become
natural numbers of seconds, hash maps become association lists with
first-match lookup, the tokio mpsc queue becomes an explicit list with a
capacity bound, and the read/write tasks become step functions and traces
over explicit schedules.
-/

namespace SquadX

/-! Time model: Instant and Duration are whole seconds. Instant.elapsed in
Rust saturates at zero, which Nat subtraction models exactly. -/

abbrev Instant := Nat
abbrev Duration := Nat

/-- CacheEntry from cache.rs: data plus creation instant plus ttl. -/
structure CacheEntry (T : Type) where
  data : T
  created_at : Instant
  ttl : Duration
deriving Repr, DecidableEq

/-- CacheEntry::new stores the data with the current instant, passed here
explicitly as now. -/
def CacheEntry.new {T : Type} (now : Instant) (data : T) (ttl : Duration) : CacheEntry T :=
  ⟨data, now, ttl⟩

/-- CacheEntry::is_expired returns created_at.elapsed() > ttl, a strict
comparison of the elapsed time against the ttl. -/
def CacheEntry.is_expired {T : Type} (e : CacheEntry T) (now : Instant) : Bool :=
  decide (now - e.created_at > e.ttl)

/-- CacheEntry::remaining_ttl returns ttl minus elapsed, floored at zero. -/
def CacheEntry.remaining_ttl {T : Type} (e : CacheEntry T) (now : Instant) : Duration :=
  if now - e.created_at > e.ttl then 0 else e.ttl - (now - e.created_at)

/-! Association lists standing in for std HashMap: lookup finds the first
matching key, erase removes every occurrence of the key, insert conses the
new binding after erasing the key, matching HashMap semantics on lookup. -/

def lookupA {β : Type} (k : String) : List (String × β) → Option β
  | [] => none
  | p :: rest => if p.1 = k then some p.2 else lookupA k rest

def eraseA {β : Type} (k : String) : List (String × β) → List (String × β)
  | [] => []
  | p :: rest => if p.1 = k then eraseA k rest else p :: eraseA k rest

def insertA {β : Type} (k : String) (v : β) (m : List (String × β)) : List (String × β) :=
  (k, v) :: eraseA k m

/-! Meeting data model from commands/calendar.rs. -/

structure MeetingAttendee where
  user_id : String
  display_name : String
  avatar_url : Option String
  response_status : String
  responded_at : Option String
deriving Repr, DecidableEq

structure Meeting where
  id : String
  organizer_id : String
  organizer_name : String
  title : String
  description : Option String
  scheduled_at : String
  duration_minutes : Int
  status : String
  session_id : Option String
  recurrence_rule : Option String
  google_event_id : Option String
  attendees : List MeetingAttendee
  created_at : Option String
  updated_at : Option String
deriving Repr, DecidableEq

/-! MeetingCache from cache.rs: meetings by month key, meetings by id, an
optional upcoming snapshot, and a default ttl of 300 seconds. -/

structure MeetingCache where
  by_month : List (String × CacheEntry (List Meeting))
  by_id : List (String × CacheEntry Meeting)
  upcoming : Option (CacheEntry (List Meeting))
  default_ttl : Duration
deriving Repr, DecidableEq

def MeetingCache.new : MeetingCache :=
  ⟨[], [], none, 300⟩

/-- The month key format is the year, a dash, and the month zero-padded to
two digits. -/
def monthKey (year : Int) (month : Nat) : String :=
  toString year ++ "-" ++ (if month < 10 then "0" ++ toString month else toString month)

def MeetingCache.get_month (c : MeetingCache) (now : Instant) (year : Int) (month : Nat) :
    Option (List Meeting) :=
  match lookupA (monthKey year month) c.by_month with
  | some e => if e.is_expired now then none else some e.data
  | none => none

def MeetingCache.set_month (c : MeetingCache) (now : Instant) (year : Int) (month : Nat)
    (meetings : List Meeting) : MeetingCache :=
  { c with by_month := insertA (monthKey year month) (CacheEntry.new now meetings c.default_ttl) c.by_month }

def MeetingCache.get_by_id (c : MeetingCache) (now : Instant) (id : String) : Option Meeting :=
  match lookupA id c.by_id with
  | some e => if e.is_expired now then none else some e.data
  | none => none

def MeetingCache.set_by_id (c : MeetingCache) (now : Instant) (meeting : Meeting) : MeetingCache :=
  { c with by_id := insertA meeting.id (CacheEntry.new now meeting c.default_ttl) c.by_id }

def MeetingCache.get_upcoming (c : MeetingCache) (now : Instant) : Option (List Meeting) :=
  match c.upcoming with
  | some e => if e.is_expired now then none else some e.data
  | none => none

/-- set_upcoming always uses a 60 second ttl. -/
def MeetingCache.set_upcoming (c : MeetingCache) (now : Instant) (meetings : List Meeting) :
    MeetingCache :=
  { c with upcoming := some (CacheEntry.new now meetings 60) }

def MeetingCache.invalidate_month (c : MeetingCache) (year : Int) (month : Nat) : MeetingCache :=
  { c with by_month := eraseA (monthKey year month) c.by_month }

/-- invalidate_meeting removes the id from by_id and also clears the
upcoming snapshot, since the snapshot might contain the meeting. -/
def MeetingCache.invalidate_meeting (c : MeetingCache) (meeting_id : String) : MeetingCache :=
  { c with by_id := eraseA meeting_id c.by_id, upcoming := none }

def MeetingCache.invalidate_all (c : MeetingCache) : MeetingCache :=
  { c with by_month := [], by_id := [], upcoming := none }

def MeetingCache.cleanup (c : MeetingCache) (now : Instant) : MeetingCache :=
  { c with
    by_month := c.by_month.filter (fun p => !(p.2.is_expired now)),
    by_id := c.by_id.filter (fun p => !(p.2.is_expired now)),
    upcoming := match c.upcoming with
      | some e => if e.is_expired now then none else some e
      | none => none }

/-! PresenceCache from cache.rs: presence by user id, an optional team
members snapshot, and a default ttl of 30 seconds. -/

structure PresenceInfo where
  user_id : String
  is_online : Bool
  last_seen : Option String
  status : Option String
deriving Repr, DecidableEq

structure PresenceCache where
  by_user : List (String × CacheEntry PresenceInfo)
  team_members : Option (CacheEntry (List PresenceInfo))
  default_ttl : Duration
deriving Repr, DecidableEq

def PresenceCache.new : PresenceCache :=
  ⟨[], none, 30⟩

def PresenceCache.get_user (c : PresenceCache) (now : Instant) (user_id : String) :
    Option PresenceInfo :=
  match lookupA user_id c.by_user with
  | some e => if e.is_expired now then none else some e.data
  | none => none

def PresenceCache.set_user (c : PresenceCache) (now : Instant) (presence : PresenceInfo) :
    PresenceCache :=
  { c with by_user := insertA presence.user_id (CacheEntry.new now presence c.default_ttl) c.by_user }

def PresenceCache.get_team_members (c : PresenceCache) (now : Instant) :
    Option (List PresenceInfo) :=
  match c.team_members with
  | some e => if e.is_expired now then none else some e.data
  | none => none

/-- set_team_members first stores every member through set_user, then
stores the snapshot with the default ttl. -/
def PresenceCache.set_team_members (c : PresenceCache) (now : Instant)
    (members : List PresenceInfo) : PresenceCache :=
  let c := members.foldl (fun acc m => acc.set_user now m) c
  { c with team_members := some (CacheEntry.new now members c.default_ttl) }

/-- updateOnline mirrors the by_user branch of update_from_realtime: the
entry stored under the key, if any, gets its is_online field replaced and
its created_at reset; data fields other than is_online and the ttl are
kept; no entry is inserted when the key is absent. -/
def updateOnline (uid : String) (b : Bool) (now : Instant) :
    List (String × CacheEntry PresenceInfo) → List (String × CacheEntry PresenceInfo)
  | [] => []
  | (k, e) :: rest =>
    if k = uid then
      (k, ⟨⟨e.data.user_id, b, e.data.last_seen, e.data.status⟩, now, e.ttl⟩) :: rest
    else
      (k, e) :: updateOnline uid b now rest

/-- setFirstOnline mirrors the iter_mut().find() update inside the team
members branch: only the first member with the matching user id has its
is_online field replaced. -/
def setFirstOnline (uid : String) (b : Bool) : List PresenceInfo → List PresenceInfo
  | [] => []
  | m :: rest =>
    if m.user_id = uid then ⟨m.user_id, b, m.last_seen, m.status⟩ :: rest
    else m :: setFirstOnline uid b rest

/-- update_from_realtime from cache.rs: refresh the by_user entry in place
when present, and refresh the team snapshot creation instant whenever the
snapshot exists, updating the matching member inside it. -/
def PresenceCache.update_from_realtime (c : PresenceCache) (now : Instant) (user_id : String)
    (is_online : Bool) : PresenceCache :=
  { c with
    by_user := updateOnline user_id is_online now c.by_user,
    team_members :=
      match c.team_members with
      | some e => some ⟨setFirstOnline user_id is_online e.data, now, e.ttl⟩
      | none => none }

def PresenceCache.invalidate_all (c : PresenceCache) : PresenceCache :=
  { c with by_user := [], team_members := none }

def PresenceCache.cleanup (c : PresenceCache) (now : Instant) : PresenceCache :=
  { c with
    by_user := c.by_user.filter (fun p => !(p.2.is_expired now)),
    team_members := match c.team_members with
      | some e => if e.is_expired now then none else some e
      | none => none }

/-! Structured JSON values standing in for serde_json::Value. Objects carry
their fields as a list; Json.get looks up the first matching field. -/

inductive Json where
  | null
  | bool (b : Bool)
  | num (n : Int)
  | str (s : String)
  | arr (elems : List Json)
  | obj (fields : List (String × Json))

def Json.get (j : Json) (k : String) : Option Json :=
  match j with
  | .obj fields => lookupA k fields
  | _ => none

def Json.asStr : Json → Option String
  | .str s => some s
  | _ => none

def Json.asBool : Json → Option Bool
  | .bool b => some b
  | _ => none

def Json.asObject : Json → Option (List (String × Json))
  | .obj fields => some fields
  | _ => none

/-- Required string field of a struct being deserialized. -/
def Json.getStr (j : Json) (k : String) : Option String :=
  (j.get k).bind Json.asStr

/-- Optional string field: absent or null gives no value, a string gives
the value, anything else is a decode failure. -/
def Json.getOptStr (j : Json) (k : String) : Option (Option String) :=
  match j.get k with
  | none => some none
  | some .null => some none
  | some (.str s) => some (some s)
  | some _ => none

/-- Required unsigned integer field. -/
def Json.getNat (j : Json) (k : String) : Option Nat :=
  match j.get k with
  | some (.num n) => if n < 0 then none else some n.toNat
  | _ => none

/-- Optional unsigned integer field. -/
def Json.getOptNat (j : Json) (k : String) : Option (Option Nat) :=
  match j.get k with
  | none => some none
  | some .null => some none
  | some (.num n) => if n < 0 then none else some (some n.toNat)
  | some _ => none

/-- Required boolean field. -/
def Json.getBool (j : Json) (k : String) : Option Bool :=
  (j.get k).bind Json.asBool

def jsonOfOptStr : Option String → Json
  | none => .null
  | some s => .str s

def jsonOfOptNat : Option Nat → Json
  | none => .null
  | some n => .num n

/-- The wire envelope of the realtime protocol, named RealtimeMessage in
both realtime.rs and chat_realtime.rs: topic, event, payload, and the ref
field serialized under the name ref. -/
structure RealtimeMessage where
  topic : String
  event : String
  payload : Json
  reference : Option String

/-- Chat domain message from commands/chat.rs. -/
structure Message where
  id : String
  conversation_id : String
  sender_id : Option String
  sender_name : String
  content : String
  message_type : String
  created_at : Option String
deriving Repr, DecidableEq

/-- The serde deserialization of Message from a JSON value: every string
field required, the two option fields tolerant of absence or null. -/
def decodeMessage (j : Json) : Option Message := do
  let id ← j.getStr "id"
  let conversation_id ← j.getStr "conversation_id"
  let sender_id ← j.getOptStr "sender_id"
  let sender_name ← j.getStr "sender_name"
  let content ← j.getStr "content"
  let message_type ← j.getStr "message_type"
  let created_at ← j.getOptStr "created_at"
  pure ⟨id, conversation_id, sender_id, sender_name, content, message_type, created_at⟩

/-- WebRTC signaling vocabulary from realtime.rs, tagged on the wire by a
snake case type field. -/
inductive SignalingMessage where
  | Offer (sdp : String) (from_user_id : String)
  | Answer (sdp : String) (from_user_id : String)
  | IceCandidate (candidate : String) (sdp_mid : Option String)
      (sdp_m_line_index : Option Nat) (from_user_id : String)
  | ControlRequest (from_user_id : String)
  | ControlGrant (to_user_id : String)
  | ControlRevoke (to_user_id : String)
  | UserJoined (user_id : String) (is_host : Bool)
  | UserLeft (user_id : String)
  | ChatMessage (id : String) (from_user_id : String) (from_username : String)
      (content : String) (timestamp : Nat)
deriving Repr, DecidableEq

/-- The serde deserialization of SignalingMessage: dispatch on the type
tag, then read the fields of the matching variant; an unrecognized tag is
a decode failure. -/
def decodeSignalingMessage (j : Json) : Option SignalingMessage := do
  let t ← j.getStr "type"
  match t with
  | "offer" => do
    let sdp ← j.getStr "sdp"
    let f ← j.getStr "from_user_id"
    pure (.Offer sdp f)
  | "answer" => do
    let sdp ← j.getStr "sdp"
    let f ← j.getStr "from_user_id"
    pure (.Answer sdp f)
  | "ice_candidate" => do
    let c ← j.getStr "candidate"
    let mid ← j.getOptStr "sdp_mid"
    let idx ← j.getOptNat "sdp_m_line_index"
    let f ← j.getStr "from_user_id"
    pure (.IceCandidate c mid idx f)
  | "control_request" => do
    let f ← j.getStr "from_user_id"
    pure (.ControlRequest f)
  | "control_grant" => do
    let t ← j.getStr "to_user_id"
    pure (.ControlGrant t)
  | "control_revoke" => do
    let t ← j.getStr "to_user_id"
    pure (.ControlRevoke t)
  | "user_joined" => do
    let u ← j.getStr "user_id"
    let h ← j.getBool "is_host"
    pure (.UserJoined u h)
  | "user_left" => do
    let u ← j.getStr "user_id"
    pure (.UserLeft u)
  | "chat_message" => do
    let i ← j.getStr "id"
    let f ← j.getStr "from_user_id"
    let fu ← j.getStr "from_username"
    let c ← j.getStr "content"
    let ts ← j.getNat "timestamp"
    pure (.ChatMessage i f fu c ts)
  | _ => none

/-- The serde serialization of SignalingMessage: the type tag first, then
the fields in declaration order. -/
def encodeSignalingMessage : SignalingMessage → Json
  | .Offer sdp f =>
    .obj [("type", .str "offer"), ("sdp", .str sdp), ("from_user_id", .str f)]
  | .Answer sdp f =>
    .obj [("type", .str "answer"), ("sdp", .str sdp), ("from_user_id", .str f)]
  | .IceCandidate c mid idx f =>
    .obj [("type", .str "ice_candidate"), ("candidate", .str c),
          ("sdp_mid", jsonOfOptStr mid), ("sdp_m_line_index", jsonOfOptNat idx),
          ("from_user_id", .str f)]
  | .ControlRequest f =>
    .obj [("type", .str "control_request"), ("from_user_id", .str f)]
  | .ControlGrant t =>
    .obj [("type", .str "control_grant"), ("to_user_id", .str t)]
  | .ControlRevoke t =>
    .obj [("type", .str "control_revoke"), ("to_user_id", .str t)]
  | .UserJoined u h =>
    .obj [("type", .str "user_joined"), ("user_id", .str u), ("is_host", .bool h)]
  | .UserLeft u =>
    .obj [("type", .str "user_left"), ("user_id", .str u)]
  | .ChatMessage i f fu c ts =>
    .obj [("type", .str "chat_message"), ("id", .str i), ("from_user_id", .str f),
          ("from_username", .str fu), ("content", .str c), ("timestamp", .num ts)]

/-- Connection lifecycle states from realtime.rs. -/
inductive ChannelState where
  | Disconnected
  | Connecting
  | Connected
  | Joined
  | Error (reason : String)
deriving Repr, DecidableEq

/-- One item delivered by the websocket read half, after the envelope
decode step: a text frame carries the result of decoding its text into a
RealtimeMessage with serde, close is a clean close frame, err is a
transport error, and other covers binary and ping and pong frames. -/
inductive WsInbound where
  | text (decoded : Option RealtimeMessage)
  | close
  | err (reason : String)
  | other

/-- The phx_reply handling compares the status field of the payload with
the json string ok. -/
def statusIsOk (payload : Json) : Bool :=
  match payload.get "status" with
  | some (.str s) => s == "ok"
  | _ => false

/-- Effect of one iteration of the signaling read task: the connection
state afterwards, the decoded signaling messages pushed into the
subscriber broadcast channel, and whether the loop breaks. -/
structure SigStepOut where
  state : ChannelState
  forwarded : List SignalingMessage
  exitLoop : Bool
deriving Repr, DecidableEq

/-- One iteration of the read task spawned by join_channel in realtime.rs,
as a function of the current shared connection state and the inbound
item. -/
def sigReadStep (s : ChannelState) (ev : WsInbound) : SigStepOut :=
  match ev with
  | .text decoded =>
    match decoded with
    | some m =>
      match m.event with
      | "phx_reply" =>
        if statusIsOk m.payload then ⟨.Joined, [], false⟩ else ⟨s, [], false⟩
      | "broadcast" =>
        match m.payload.get "payload" with
        | some p =>
          match decodeSignalingMessage p with
          | some sig => ⟨s, [sig], false⟩
          | none => ⟨s, [], false⟩
        | none => ⟨s, [], false⟩
      | "presence_diff" => ⟨s, [], false⟩
      | "presence_state" => ⟨s, [], false⟩
      | _ => ⟨s, [], false⟩
    | none => ⟨s, [], false⟩
  | .close => ⟨.Disconnected, [], true⟩
  | .err e => ⟨.Error e, [], true⟩
  | .other => ⟨s, [], false⟩

/-- UI events emitted through the app handle by the chat read task. -/
inductive ChatEmit where
  | newMessage (m : Message)
  | presenceChange (payload : Json)
  | presenceUpdate (payload : Json)

/-- Shared state the chat read task touches: the connected flag of the
client inner, and the optional shared presence cache handle. -/
structure ChatLoopState where
  is_connected : Bool
  cache : Option PresenceCache

/-- Effect of one iteration of the chat read task. -/
structure ChatStepOut where
  state : ChatLoopState
  emits : List ChatEmit
  exitLoop : Bool

/-- For a joins or leaves value taken from the presence payload, iterate
over the object keys applying update_from_realtime with the given online
flag; an absent key or a non-object value is skipped. -/
def applyPresenceKeys (now : Instant) (b : Bool) (pc : PresenceCache) :
    Option Json → PresenceCache
  | some (.obj fields) =>
    fields.foldl (fun acc kv => acc.update_from_realtime now kv.1 b) pc
  | _ => pc

/-- Cache effect of a presence payload: mark every key of the joins object
online, then every key of the leaves object offline. -/
def presenceApply (now : Instant) (pc : PresenceCache) (payload : Json) : PresenceCache :=
  applyPresenceKeys now false
    (applyPresenceKeys now true pc (payload.get "joins"))
    (payload.get "leaves")

/-- The presence_diff and presence_state branch of the chat read task:
when a cache handle is held apply the presence payload to it, and emit the
presence update event in every case. -/
def presenceStep (now : Instant) (s : ChatLoopState) (m : RealtimeMessage) : ChatStepOut :=
  let cache :=
    match s.cache with
    | some pc => some (presenceApply now pc m.payload)
    | none => none
  ⟨⟨s.is_connected, cache⟩, [.presenceUpdate m.payload], false⟩

/-- One iteration of the read task spawned by connect in chat_realtime.rs:
dispatch on the envelope event, then for broadcasts on the inner type
field; a failed envelope decode, an unrecognized event, an unrecognized
inner type, and a failed domain decode all fall through with no effect. -/
def chatReadStep (now : Instant) (s : ChatLoopState) (ev : WsInbound) : ChatStepOut :=
  match ev with
  | .text decoded =>
    match decoded with
    | some m =>
      match m.event with
      | "phx_reply" => ⟨s, [], false⟩
      | "broadcast" =>
        match m.payload.get "payload" with
        | some p =>
          match (p.get "type").bind Json.asStr with
          | some "chat_message" =>
            match decodeMessage p with
            | some msg => ⟨s, [.newMessage msg], false⟩
            | none => ⟨s, [], false⟩
          | some "presence_change" =>
            let cache :=
              match s.cache with
              | some pc =>
                match p.getStr "user_id", p.getBool "is_online" with
                | some uid, some b => some (pc.update_from_realtime now uid b)
                | _, _ => some pc
              | none => none
            ⟨⟨s.is_connected, cache⟩, [.presenceChange p], false⟩
          | some _ => ⟨s, [], false⟩
          | none => ⟨s, [], false⟩
        | none => ⟨s, [], false⟩
      | "presence_diff" => presenceStep now s m
      | "presence_state" => presenceStep now s m
      | _ => ⟨s, [], false⟩
    | none => ⟨s, [], false⟩
  | .close => ⟨⟨false, s.cache⟩, [], true⟩
  | .err _ => ⟨⟨false, s.cache⟩, [], true⟩
  | .other => ⟨s, [], false⟩

/-! Write tasks. Both write tasks transmit a join envelope before entering
their select loop; serialization of these envelope values always succeeds,
so every frame handed to the socket appears in the trace, and a transmit
failure only truncates a suffix of the trace. -/

def HEARTBEAT_INTERVAL_MS : Nat := 30000

/-- The heartbeat frame: topic phoenix, event heartbeat, empty object
payload, no reference. -/
def heartbeatFrame : RealtimeMessage :=
  ⟨"phoenix", "heartbeat", .obj [], none⟩

/-- The join payload sent by both write tasks: channel configuration with
broadcast self false and the presence key set to the user id, plus the
access token. -/
def joinPayload (access_token user_id : String) : Json :=
  .obj [("config", .obj [("broadcast", .obj [("self", .bool false)]),
                         ("presence", .obj [("key", .str user_id)])]),
        ("access_token", .str access_token)]

def chatJoinFrame (access_token user_id : String) : RealtimeMessage :=
  ⟨"realtime:chat:user:" ++ user_id, "phx_join", joinPayload access_token user_id, some "1"⟩

def sigJoinFrame (session_id access_token user_id : String) : RealtimeMessage :=
  ⟨"realtime:session:" ++ session_id, "phx_join", joinPayload access_token user_id, some "1"⟩

/-- The broadcast envelope the signaling write task wraps around a domain
message before transmitting it. -/
def signalingBroadcastFrame (topic : String) (m : SignalingMessage) : RealtimeMessage :=
  ⟨topic, "broadcast",
   .obj [("type", .str "broadcast"), ("event", .str "signaling"),
         ("payload", encodeSignalingMessage m)], none⟩

/-- Which branch of the select fired in one iteration of the signaling
write loop: a queued outgoing signaling message, an internal envelope such
as a leave broadcast, or the heartbeat timer. -/
inductive SigWriterInput where
  | queued (m : SignalingMessage)
  | internal (m : RealtimeMessage)
  | tick

def sigOutFrame (topic : String) : SigWriterInput → RealtimeMessage
  | .queued m => signalingBroadcastFrame topic m
  | .internal m => m
  | .tick => heartbeatFrame

/-- Frames the signaling write task hands to the socket, in order: the
join envelope, then the UserJoined broadcast, then one frame per loop
iteration, where the inputs list is the schedule of select winners. -/
def sigWriteTrace (session_id access_token user_id : String) (is_host : Bool)
    (inputs : List SigWriterInput) : List RealtimeMessage :=
  sigJoinFrame session_id access_token user_id
    :: signalingBroadcastFrame ("realtime:session:" ++ session_id)
        (.UserJoined user_id is_host)
    :: inputs.map (sigOutFrame ("realtime:session:" ++ session_id))

/-- Which branch of the select fired in one iteration of the chat write
loop: a queued envelope from the outgoing channel, or the heartbeat
timer. -/
inductive ChatWriterInput where
  | queued (m : RealtimeMessage)
  | tick

def chatOutFrame : ChatWriterInput → RealtimeMessage
  | .queued m => m
  | .tick => heartbeatFrame

/-- Loop part of the chat write task: each iteration transmits one frame
and then rereads the shared connected flag, exiting when it has been
cleared; the Bool of each step records that observation. -/
def chatLoopFrames : List (ChatWriterInput × Bool) → List RealtimeMessage
  | [] => []
  | (i, stillConnected) :: rest =>
    chatOutFrame i :: (if stillConnected then chatLoopFrames rest else [])

/-- Frames the chat write task hands to the socket, in order: the join
envelope first, then the loop frames. -/
def chatWriteTrace (access_token user_id : String)
    (steps : List (ChatWriterInput × Bool)) : List RealtimeMessage :=
  chatJoinFrame access_token user_id :: chatLoopFrames steps

/-! Connect preludes and the send path. -/

/-- Errors from error.rs reachable from the realtime clients. -/
inductive Error where
  | Auth (msg : String)
  | Session (msg : String)
  | Config (msg : String)
  | Network (msg : String)
deriving Repr, DecidableEq

/-- Outcome of the websocket open performed by connect_async. -/
inductive TransportResult where
  | opened
  | failed (e : String)

/-- Leading section of join_channel in realtime.rs: read the stored access
token, failing with an Auth error when none is stored, and only then open
the transport, mapping an open failure to a Network error; on success the
token is handed to the tasks. -/
def joinChannelPrelude (access_token : Option String) (transport : TransportResult) :
    Except Error String :=
  match access_token with
  | none => .error (.Auth "Not authenticated")
  | some tok =>
    match transport with
    | .failed e => .error (.Network ("WebSocket connection failed: " ++ e))
    | .opened => .ok tok

/-- Leading section of connect in chat_realtime.rs, with the same token
check and the same error mapping. -/
def chatConnectPrelude (access_token : Option String) (transport : TransportResult) :
    Except Error String :=
  match access_token with
  | none => .error (.Auth "Not authenticated")
  | some tok =>
    match transport with
    | .failed e => .error (.Network ("WebSocket connection failed: " ++ e))
    | .opened => .ok tok

def isAuthError {α : Type} : Except Error α → Bool
  | .error (.Auth _) => true
  | _ => false

/-- Shared inner state of the chat client; message_tx records whether a
sender handle for the outgoing queue is currently held. -/
structure ChatRealtimeClientInner where
  supabase_url : String
  anon_key : String
  access_token : Option String
  is_connected : Bool
  message_tx : Bool
deriving Repr, DecidableEq

/-- disconnect in chat_realtime.rs clears the connected flag and drops the
sender handle. -/
def ChatRealtimeClientInner.disconnect (inner : ChatRealtimeClientInner) :
    ChatRealtimeClientInner :=
  { inner with is_connected := false, message_tx := false }

/-- Capacity of the bounded outgoing mpsc channel. -/
def outgoingQueueCapacity : Nat := 100

/-- The envelope broadcast_message builds around a chat message. -/
def broadcastChatFrame (conversation_id : String) (m : Message) : RealtimeMessage :=
  ⟨"realtime:chat:" ++ conversation_id, "broadcast",
   .obj [("type", .str "broadcast"), ("event", .str "chat_message"),
         ("payload", .obj [("type", .str "chat_message"),
                           ("id", .str m.id),
                           ("conversation_id", .str m.conversation_id),
                           ("sender_id", jsonOfOptStr m.sender_id),
                           ("sender_name", .str m.sender_name),
                           ("content", .str m.content),
                           ("message_type", .str m.message_type),
                           ("created_at", jsonOfOptStr m.created_at)])],
   none⟩

/-- Possible outcomes of broadcast_message against the bounded queue:
okEnqueued returns Ok with the frame appended, okNoop returns Ok without
touching the queue, errNetwork is the mapped send error, and
awaitsCapacity is a call parked inside send until space frees up. -/
inductive ChatSendResult where
  | okEnqueued (queue : List RealtimeMessage)
  | okNoop
  | errNetwork
  | awaitsCapacity

def ChatSendResult.isErr : ChatSendResult → Bool
  | .errNetwork => true
  | _ => false

def ChatSendResult.isOk : ChatSendResult → Bool
  | .okEnqueued _ => true
  | .okNoop => true
  | _ => false

/-- broadcast_message from chat_realtime.rs over the bounded tokio queue.
When no sender handle is held, as after disconnect, the sending block is
skipped and Ok is returned without enqueuing anything. When a sender is
held, tokio mpsc send returns an error exactly when the receiver has been
dropped, and that error is mapped to a Network error; when the channel is
open but already holds capacity many items the call parks inside send
until space frees up, and otherwise the frame is appended and Ok
returned. -/
def broadcast_message (inner : ChatRealtimeClientInner) (rxClosed : Bool)
    (queue : List RealtimeMessage) (conversation_id : String) (m : Message) :
    ChatSendResult :=
  if inner.message_tx then
    if rxClosed then .errNetwork
    else if queue.length < outgoingQueueCapacity then
      .okEnqueued (queue ++ [broadcastChatFrame conversation_id m])
    else .awaitsCapacity
  else .okNoop

/-- Whether a get_user result is an entry marked online. -/
def onlineIn : Option PresenceInfo → Bool
  | some info => info.is_online
  | none => false

/-- The by_user entry produced by update_from_realtime for an existing
entry: same user id, last seen and status, the new online flag, the
creation instant reset to now, the ttl kept. -/
def onlineEntry (b : Bool) (now : Instant) (e : CacheEntry PresenceInfo) :
    CacheEntry PresenceInfo :=
  ⟨⟨e.data.user_id, b, e.data.last_seen, e.data.status⟩, now, e.ttl⟩

/-! Concrete sample data used to instantiate theorems with hypotheses. -/

def sampleMessage : Message :=
  ⟨"m1", "c1", none, "alice", "hi", "text", none⟩

def connectedInner : ChatRealtimeClientInner :=
  ⟨"https://example.supabase.co", "anon", some "t1", true, true⟩

def fullQueue : List RealtimeMessage :=
  List.replicate 100 heartbeatFrame

def sampleMeeting : Meeting :=
  ⟨"m1", "org", "Org Name", "standup", none, "2026-02-01T10:00:00Z", 30,
   "scheduled", none, none, none, [], none, none⟩

def sampleMeetingCache : MeetingCache :=
  ⟨[("2026-02", CacheEntry.new 0 [sampleMeeting] 300),
    ("2026-03", CacheEntry.new 0 [] 300)],
   [("m1", CacheEntry.new 0 sampleMeeting 300)],
   some (CacheEntry.new 0 [sampleMeeting] 60), 300⟩

def infoU7 : PresenceInfo := ⟨"u7", false, none, some "busy"⟩

def samplePresenceCache : PresenceCache :=
  ⟨[("u7", CacheEntry.new 2 infoU7 30)], none, 30⟩

def presenceDiffPayload : Json :=
  .obj [("joins", .obj [("u7", .obj [])]), ("leaves", .obj [])]

def presenceDiffU7 : RealtimeMessage :=
  ⟨"realtime:chat:user:me", "presence_diff", presenceDiffPayload, none⟩

def dupA : PresenceInfo := ⟨"u", true, none, none⟩

def dupB : PresenceInfo := ⟨"u", false, none, none⟩

def twoMembers : List PresenceInfo :=
  [⟨"a", true, none, none⟩, ⟨"b", false, none, some "away"⟩]

def okReply : RealtimeMessage :=
  ⟨"realtime:session:s1", "phx_reply", .obj [("status", .str "ok")], some "1"⟩

def unknownBroadcast : RealtimeMessage :=
  ⟨"realtime:chat:user:me", "broadcast",
   .obj [("payload", .obj [("type", .str "mystery"), ("x", .num 1)])], none⟩

/-! Library of lemmas about the association list operations and the
presence update folds. -/

theorem lookupA_eraseA_self {β : Type} (k : String) (m : List (String × β)) :
    lookupA k (eraseA k m) = none := by
  induction m with
  | nil => rfl
  | cons p rest ih =>
    by_cases h : p.1 = k
    · simpa [eraseA, h] using ih
    · simp [eraseA, lookupA, h, ih]

theorem lookupA_eraseA_ne {β : Type} (k k' : String) (m : List (String × β))
    (h : k' ≠ k) : lookupA k' (eraseA k m) = lookupA k' m := by
  induction m with
  | nil => rfl
  | cons p rest ih =>
    by_cases hp : p.1 = k
    · have hpk : p.1 ≠ k' := by
        rw [hp]; intro hc; exact h hc.symm
      simp only [eraseA, if_pos hp, lookupA, if_neg hpk, ih]
    · by_cases hp' : p.1 = k'
      · simp only [eraseA, if_neg hp, lookupA, if_pos hp']
      · simp only [eraseA, if_neg hp, lookupA, if_neg hp', ih]

theorem lookupA_insertA_self {β : Type} (k : String) (v : β) (m : List (String × β)) :
    lookupA k (insertA k v m) = some v := by
  simp [insertA, lookupA]

theorem lookupA_insertA_ne {β : Type} (k k' : String) (v : β) (m : List (String × β))
    (h : k' ≠ k) : lookupA k' (insertA k v m) = lookupA k' m := by
  have hk : k ≠ k' := fun hc => h hc.symm
  simp [insertA, lookupA, hk, lookupA_eraseA_ne k k' m h]

theorem lookupA_updateOnline_self (uid : String) (b : Bool) (now : Instant)
    (m : List (String × CacheEntry PresenceInfo)) (e : CacheEntry PresenceInfo)
    (h : lookupA uid m = some e) :
    lookupA uid (updateOnline uid b now m) = some (onlineEntry b now e) := by
  induction m with
  | nil => simp [lookupA] at h
  | cons p rest ih =>
    obtain ⟨k, e0⟩ := p
    by_cases hk : k = uid
    · have he : e0 = e := by
        simpa [lookupA, hk] using h
      subst he
      simp [updateOnline, lookupA, hk, onlineEntry]
    · have hrest : lookupA uid rest = some e := by
        simpa [lookupA, hk] using h
      simp [updateOnline, lookupA, hk, ih hrest]

theorem lookupA_updateOnline_ne (uid uid' : String) (b : Bool) (now : Instant)
    (m : List (String × CacheEntry PresenceInfo)) (h : uid' ≠ uid) :
    lookupA uid' (updateOnline uid b now m) = lookupA uid' m := by
  induction m with
  | nil => rfl
  | cons p rest ih =>
    obtain ⟨k, e0⟩ := p
    have huu : uid ≠ uid' := fun hc => h hc.symm
    by_cases hk : k = uid
    · simp [updateOnline, lookupA, hk, huu]
    · by_cases hk' : k = uid'
      · simp [updateOnline, lookupA, hk, hk', h]
      · simp [updateOnline, lookupA, hk, hk', ih]

theorem lookupA_updateOnline_none (uid uid' : String) (b : Bool) (now : Instant)
    (m : List (String × CacheEntry PresenceInfo)) (h : lookupA uid m = none) :
    lookupA uid (updateOnline uid' b now m) = none := by
  induction m with
  | nil => rfl
  | cons p rest ih =>
    obtain ⟨k, e0⟩ := p
    by_cases hk : k = uid
    · simp [lookupA, hk] at h
    · by_cases hk' : k = uid'
      · have hrest : lookupA uid rest = none := by
          simpa [lookupA, hk] using h
        have huu : ¬uid' = uid := hk' ▸ hk
        simp [updateOnline, lookupA, hk, hk', hrest, huu]
      · have hrest : lookupA uid rest = none := by
          simpa [lookupA, hk] using h
        simp [updateOnline, lookupA, hk, hk', ih hrest]

theorem update_from_realtime_by_user (c : PresenceCache) (now : Instant)
    (uid : String) (b : Bool) :
    (c.update_from_realtime now uid b).by_user = updateOnline uid b now c.by_user := rfl

theorem onlineEntry_onlineEntry (b b' : Bool) (now now' : Instant)
    (e : CacheEntry PresenceInfo) :
    onlineEntry b now (onlineEntry b' now' e) = onlineEntry b now e := rfl

theorem presence_fold_lookup_not_mem (now : Instant) (b : Bool) (uid : String)
    (fields : List (String × Json)) (pc : PresenceCache)
    (h : uid ∉ fields.map Prod.fst) :
    lookupA uid
        ((fields.foldl (fun acc kv => acc.update_from_realtime now kv.1 b) pc)).by_user
      = lookupA uid pc.by_user := by
  induction fields generalizing pc with
  | nil => rfl
  | cons kv rest ih =>
    have hne : uid ≠ kv.1 := by
      intro hc; exact h (by simp [hc])
    have hr : uid ∉ rest.map Prod.fst := by
      intro hc; exact h (by simp [hc])
    rw [List.foldl_cons, ih _ hr, update_from_realtime_by_user,
        lookupA_updateOnline_ne kv.1 uid b now pc.by_user hne]

theorem presence_fold_lookup_mem (now : Instant) (b : Bool) (uid : String)
    (fields : List (String × Json)) (pc : PresenceCache) (e : CacheEntry PresenceInfo)
    (hmem : uid ∈ fields.map Prod.fst)
    (h : lookupA uid pc.by_user = some e) :
    lookupA uid
        ((fields.foldl (fun acc kv => acc.update_from_realtime now kv.1 b) pc)).by_user
      = some (onlineEntry b now e) := by
  induction fields generalizing pc e with
  | nil => simp at hmem
  | cons kv rest ih =>
    rw [List.foldl_cons]
    by_cases hk : kv.1 = uid
    · have h1 : lookupA uid (pc.update_from_realtime now kv.1 b).by_user
          = some (onlineEntry b now e) := by
        rw [update_from_realtime_by_user, hk]
        exact lookupA_updateOnline_self uid b now pc.by_user e h
      by_cases hrmem : uid ∈ rest.map Prod.fst
      · have := ih _ _ hrmem h1
        rwa [onlineEntry_onlineEntry] at this
      · rw [presence_fold_lookup_not_mem now b uid rest _ hrmem]
        exact h1
    · have h1 : lookupA uid (pc.update_from_realtime now kv.1 b).by_user = some e := by
        rw [update_from_realtime_by_user]
        exact (lookupA_updateOnline_ne kv.1 uid b now pc.by_user
          (fun hc => hk hc.symm)).trans h
      have hrmem : uid ∈ rest.map Prod.fst := by
        rcases List.mem_cons.mp hmem with he | hr
        · exact absurd he.symm hk
        · exact hr
      exact ih _ _ hrmem h1

theorem presence_fold_lookup_none (now : Instant) (b : Bool) (uid : String)
    (fields : List (String × Json)) (pc : PresenceCache)
    (h : lookupA uid pc.by_user = none) :
    lookupA uid
        ((fields.foldl (fun acc kv => acc.update_from_realtime now kv.1 b) pc)).by_user
      = none := by
  induction fields generalizing pc with
  | nil => exact h
  | cons kv rest ih =>
    rw [List.foldl_cons]
    refine ih _ ?_
    rw [update_from_realtime_by_user]
    exact lookupA_updateOnline_none uid kv.1 b now pc.by_user h

theorem set_user_fold_default_ttl (now : Instant) (members : List PresenceInfo)
    (c : PresenceCache) :
    (members.foldl (fun acc m => acc.set_user now m) c).default_ttl = c.default_ttl := by
  induction members generalizing c with
  | nil => rfl
  | cons x rest ih =>
    rw [List.foldl_cons]
    exact ih _

theorem set_user_fold_not_mem (now : Instant) (uid : String)
    (members : List PresenceInfo) (c : PresenceCache)
    (h : uid ∉ members.map PresenceInfo.user_id) :
    lookupA uid ((members.foldl (fun acc m => acc.set_user now m) c)).by_user
      = lookupA uid c.by_user := by
  induction members generalizing c with
  | nil => rfl
  | cons x rest ih =>
    have hx : uid ≠ x.user_id := by
      intro hc; exact h (by simp [hc])
    have hr : uid ∉ rest.map PresenceInfo.user_id := by
      intro hc; exact h (by simp [hc])
    rw [List.foldl_cons, ih _ hr]
    exact lookupA_insertA_ne x.user_id uid _ c.by_user hx

theorem set_user_fold_mem (now : Instant) (members : List PresenceInfo)
    (c : PresenceCache) (m : PresenceInfo) (hm : m ∈ members)
    (hnd : (members.map PresenceInfo.user_id).Nodup) :
    lookupA m.user_id ((members.foldl (fun acc mm => acc.set_user now mm) c)).by_user
      = some (CacheEntry.new now m c.default_ttl) := by
  induction members generalizing c with
  | nil => simp at hm
  | cons x rest ih =>
    rw [List.map_cons, List.nodup_cons] at hnd
    rw [List.foldl_cons]
    rcases List.mem_cons.mp hm with he | hr
    · subst he
      rw [set_user_fold_not_mem now _ rest _ hnd.1]
      exact lookupA_insertA_self m.user_id _ c.by_user
    · exact ih _ hr hnd.2

/-! Claim theorems. -/

/-- C6: is_expired is true exactly when the elapsed time since created_at
is strictly greater than the ttl; it is false at created_at + ttl - eps
and true at created_at + ttl + eps for every positive eps. -/
theorem is_expired_strict {T : Type} (e : CacheEntry T) (now : Instant) :
    (e.is_expired now = true ↔ e.ttl < now - e.created_at)
    ∧ (∀ eps : Nat, 0 < eps → e.is_expired (e.created_at + e.ttl + eps) = true)
    ∧ (∀ eps : Nat, 0 < eps → e.is_expired (e.created_at + e.ttl - eps) = false) := by
  refine ⟨?_, ?_, ?_⟩
  · simp [CacheEntry.is_expired]
  · intro eps heps
    have key : ∀ a t : Nat, t < a + t + eps - a := by
      intro a t; omega
    simp only [CacheEntry.is_expired, decide_eq_true_eq]
    exact key e.created_at e.ttl
  · intro eps heps
    have key : ∀ a t : Nat, ¬t < a + t - eps - a := by
      intro a t; omega
    simp only [CacheEntry.is_expired, decide_eq_false_iff_not]
    exact key e.created_at e.ttl

/-- Witness for C6, applied at a concrete entry with ttl ten created at
five, probed one second after and one second before expiry. -/
theorem is_expired_strict_witness :
    CacheEntry.is_expired (T := Unit) ⟨(), 5, 10⟩ 16 = true
    ∧ CacheEntry.is_expired (T := Unit) ⟨(), 5, 10⟩ 14 = false := by
  have h := is_expired_strict (T := Unit) ⟨(), 5, 10⟩ 0
  exact ⟨h.2.1 1 (by decide), h.2.2 1 (by decide)⟩

/-- C7: for a user already present in the presence cache,
update_from_realtime replaces only the is_online field and resets the
creation instant of its by_user entry, keeping the user id, last seen,
status and ttl, and leaves every other user entry unchanged. -/
theorem update_from_realtime_frame (c : PresenceCache) (now : Instant)
    (uid : String) (b : Bool) (e : CacheEntry PresenceInfo)
    (h : lookupA uid c.by_user = some e) :
    lookupA uid (c.update_from_realtime now uid b).by_user = some (onlineEntry b now e)
    ∧ (onlineEntry b now e).data.user_id = e.data.user_id
    ∧ (onlineEntry b now e).data.is_online = b
    ∧ (onlineEntry b now e).data.last_seen = e.data.last_seen
    ∧ (onlineEntry b now e).data.status = e.data.status
    ∧ (onlineEntry b now e).ttl = e.ttl
    ∧ (onlineEntry b now e).created_at = now
    ∧ (∀ uid', uid' ≠ uid →
        lookupA uid' (c.update_from_realtime now uid b).by_user = lookupA uid' c.by_user) := by
  refine ⟨?_, rfl, rfl, rfl, rfl, rfl, rfl, ?_⟩
  · rw [update_from_realtime_by_user]
    exact lookupA_updateOnline_self uid b now c.by_user e h
  · intro uid' h'
    rw [update_from_realtime_by_user]
    exact lookupA_updateOnline_ne uid uid' b now c.by_user h'

/-- Witness for C7 at the sample presence cache holding user u7. -/
theorem update_from_realtime_frame_witness :
    lookupA "u7" (samplePresenceCache.update_from_realtime 9 "u7" true).by_user
      = some (onlineEntry true 9 (CacheEntry.new 2 infoU7 30))
    ∧ lookupA "other" (samplePresenceCache.update_from_realtime 9 "u7" true).by_user
      = lookupA "other" samplePresenceCache.by_user := by
  have h := update_from_realtime_frame samplePresenceCache 9 "u7" true
    (CacheEntry.new 2 infoU7 30) rfl
  exact ⟨h.1, h.2.2.2.2.2.2.2 "other" (by decide)⟩

/-- C8: invalidate_meeting removes the id from the by_id store and clears
the upcoming snapshot while leaving by_month untouched; invalidate_month
removes only that month key and touches neither by_id nor upcoming;
invalidate_all empties every store. -/
theorem meeting_cache_invalidation (c : MeetingCache) (id : String)
    (year : Int) (month : Nat) :
    lookupA id (c.invalidate_meeting id).by_id = none
    ∧ (c.invalidate_meeting id).upcoming = none
    ∧ (c.invalidate_meeting id).by_month = c.by_month
    ∧ lookupA (monthKey year month) (c.invalidate_month year month).by_month = none
    ∧ (∀ k, k ≠ monthKey year month →
        lookupA k (c.invalidate_month year month).by_month = lookupA k c.by_month)
    ∧ (c.invalidate_month year month).by_id = c.by_id
    ∧ (c.invalidate_month year month).upcoming = c.upcoming
    ∧ c.invalidate_all.by_month = []
    ∧ c.invalidate_all.by_id = []
    ∧ c.invalidate_all.upcoming = none := by
  refine ⟨?_, rfl, rfl, ?_, ?_, rfl, rfl, rfl, rfl, rfl⟩
  · exact lookupA_eraseA_self id c.by_id
  · exact lookupA_eraseA_self (monthKey year month) c.by_month
  · intro k hk
    exact lookupA_eraseA_ne (monthKey year month) k c.by_month hk

/-- Witness for C8 at the sample meeting cache: invalidating February 2026
removes that month and keeps March 2026. -/
theorem meeting_cache_invalidation_witness :
    lookupA "2026-02" (sampleMeetingCache.invalidate_month 2026 2).by_month = none
    ∧ lookupA "2026-03" (sampleMeetingCache.invalidate_month 2026 2).by_month
        = lookupA "2026-03" sampleMeetingCache.by_month
    ∧ lookupA "m1" (sampleMeetingCache.invalidate_meeting "m1").by_id = none
    ∧ (sampleMeetingCache.invalidate_meeting "m1").upcoming = none := by
  have h := meeting_cache_invalidation sampleMeetingCache "m1" 2026 2
  have hkey : monthKey 2026 2 = "2026-02" := by decide
  exact ⟨hkey ▸ h.2.2.2.1, h.2.2.2.2.1 "2026-03" (by decide),
    h.1, h.2.1⟩

theorem get_user_of_lookup_now (c : PresenceCache) (now : Instant) (uid : String)
    (d : PresenceInfo) (t : Duration)
    (h : lookupA uid c.by_user = some ⟨d, now, t⟩) :
    c.get_user now uid = some d := by
  simp [PresenceCache.get_user, h, CacheEntry.is_expired]

/-- C10 counterexample: with two members sharing a user id the second
insert wins, so for the first member get_user does not return that member
even though it is in the list. -/
theorem set_team_members_duplicate_counterexample :
    dupA ∈ [dupA, dupB]
    ∧ dupA.user_id = "u"
    ∧ (PresenceCache.new.set_team_members 0 [dupA, dupB]).get_user 0 "u" = some dupB
    ∧ dupB ≠ dupA := by
  refine ⟨by simp, rfl, rfl, by decide⟩

/-- C10 amended: when the member user ids are pairwise distinct,
set_team_members inserts every member as a fresh by_user entry with the
default presence ttl, so get_user at the same instant returns that
member. -/
theorem set_team_members_populates_by_user (c : PresenceCache) (now : Instant)
    (members : List PresenceInfo) (m : PresenceInfo)
    (hm : m ∈ members) (hnd : (members.map PresenceInfo.user_id).Nodup) :
    lookupA m.user_id (c.set_team_members now members).by_user
      = some (CacheEntry.new now m c.default_ttl)
    ∧ (c.set_team_members now members).get_user now m.user_id = some m := by
  have hby : (c.set_team_members now members).by_user
      = ((members.foldl (fun acc mm => acc.set_user now mm) c)).by_user := rfl
  have hl : lookupA m.user_id (c.set_team_members now members).by_user
      = some (CacheEntry.new now m c.default_ttl) := by
    rw [hby]
    exact set_user_fold_mem now members c m hm hnd
  exact ⟨hl, get_user_of_lookup_now _ now m.user_id m c.default_ttl hl⟩

/-- Witness for C10 amended, at two members with distinct user ids. -/
theorem set_team_members_populates_by_user_witness :
    (PresenceCache.new.set_team_members 7 twoMembers).get_user 7 "b"
      = some ⟨"b", false, none, some "away"⟩ := by
  have h := set_team_members_populates_by_user PresenceCache.new 7 twoMembers
    ⟨"b", false, none, some "away"⟩ (by simp [twoMembers]) (by decide)
  exact h.2

/-- C2 counterexample: a presence_diff whose joins object carries only the
unknown user u7 leaves the empty presence cache empty, so get_user for u7
yields no entry and in particular no entry that is online. -/
theorem presence_diff_unknown_user_counterexample :
    (chatReadStep 0 ⟨true, some PresenceCache.new⟩ (.text (some presenceDiffU7))).state.cache
      = some (presenceApply 0 PresenceCache.new presenceDiffPayload)
    ∧ (presenceApply 0 PresenceCache.new presenceDiffPayload).get_user 0 "u7" = none
    ∧ onlineIn ((presenceApply 0 PresenceCache.new presenceDiffPayload).get_user 0 "u7")
      = false := by
  refine ⟨rfl, rfl, rfl⟩

/-- C2 amended: a presence_diff or presence_state frame marks each joins
key that already has a by_user entry online with its creation instant
refreshed, and each leaves key that has an entry offline; user ids with no
existing by_user entry are not inserted; the presence update event is
emitted regardless of whether the cache was touched. -/
theorem chat_presence_diff_effect (now : Instant) (pc : PresenceCache)
    (payload : Json) (js ls : List (String × Json)) (uid : String)
    (e : CacheEntry PresenceInfo)
    (hjs : payload.get "joins" = some (.obj js))
    (hls : payload.get "leaves" = some (.obj ls)) :
    (uid ∈ js.map Prod.fst → uid ∉ ls.map Prod.fst →
      lookupA uid pc.by_user = some e →
      lookupA uid (presenceApply now pc payload).by_user = some (onlineEntry true now e)
      ∧ (presenceApply now pc payload).get_user now uid
          = some ⟨e.data.user_id, true, e.data.last_seen, e.data.status⟩)
    ∧ (uid ∉ js.map Prod.fst → uid ∈ ls.map Prod.fst →
      lookupA uid pc.by_user = some e →
      lookupA uid (presenceApply now pc payload).by_user = some (onlineEntry false now e))
    ∧ (lookupA uid pc.by_user = none →
      lookupA uid (presenceApply now pc payload).by_user = none)
    ∧ (∀ (conn : Bool) (cache : Option PresenceCache) (m : RealtimeMessage),
        m.event = "presence_diff" ∨ m.event = "presence_state" →
        (chatReadStep now ⟨conn, cache⟩ (.text (some m))).emits
            = [.presenceUpdate m.payload]
        ∧ (chatReadStep now ⟨conn, cache⟩ (.text (some m))).exitLoop = false
        ∧ (chatReadStep now ⟨conn, cache⟩ (.text (some m))).state.cache
            = (match cache with
               | some pc0 => some (presenceApply now pc0 m.payload)
               | none => none)) := by
  refine ⟨?_, ?_, ?_, ?_⟩
  · intro hin hnotin hlk
    have step1 : lookupA uid
        ((js.foldl (fun acc kv => acc.update_from_realtime now kv.1 true) pc)).by_user
        = some (onlineEntry true now e) :=
      presence_fold_lookup_mem now true uid js pc e hin hlk
    have step2 : lookupA uid (presenceApply now pc payload).by_user
        = some (onlineEntry true now e) := by
      unfold presenceApply
      rw [hjs, hls]
      simp only [applyPresenceKeys]
      exact (presence_fold_lookup_not_mem now false uid ls _ hnotin).trans step1
    refine ⟨step2, ?_⟩
    exact get_user_of_lookup_now _ now uid _ e.ttl step2
  · intro hnotin hin hlk
    have step1 : lookupA uid
        ((js.foldl (fun acc kv => acc.update_from_realtime now kv.1 true) pc)).by_user
        = some e :=
      (presence_fold_lookup_not_mem now true uid js pc hnotin).trans hlk
    unfold presenceApply
    rw [hjs, hls]
    simp only [applyPresenceKeys]
    exact presence_fold_lookup_mem now false uid ls _ e hin step1
  · intro hnone
    unfold presenceApply
    rw [hjs, hls]
    simp only [applyPresenceKeys]
    exact presence_fold_lookup_none now false uid ls _
      (presence_fold_lookup_none now true uid js pc hnone)
  · intro conn cache m hev
    obtain ⟨mt, mev, mp, mr⟩ := m
    rcases hev with hev | hev <;>
    · simp only at hev
      subst hev
      cases cache <;> simp [chatReadStep, presenceStep]

/-- Witness for C2 amended, at the sample cache where u7 is present and a
payload joining u7 and leaving nobody. -/
theorem chat_presence_diff_effect_witness :
    lookupA "u7" (presenceApply 9 samplePresenceCache presenceDiffPayload).by_user
      = some (onlineEntry true 9 (CacheEntry.new 2 infoU7 30))
    ∧ (presenceApply 9 samplePresenceCache presenceDiffPayload).get_user 9 "u7"
      = some ⟨"u7", true, none, some "busy"⟩ := by
  have h := chat_presence_diff_effect 9 samplePresenceCache presenceDiffPayload
    [("u7", .obj [])] [] "u7" (CacheEntry.new 2 infoU7 30) rfl rfl
  have h1 := h.1 (by decide) (by decide) rfl
  exact ⟨h1.1, h1.2⟩

/-- C5: the connection state machine driven by the signaling read task: a
phx_reply whose payload status is ok sets Joined without exiting, a
transport error surfaced to the read task sets Error with the reason and
exits, a clean close sets Disconnected and exits, and every other inbound
item leaves the state unchanged and keeps the loop running. -/
theorem connection_state_machine (s : ChannelState) :
    (∀ m : RealtimeMessage, m.event = "phx_reply" → statusIsOk m.payload = true →
      sigReadStep s (.text (some m)) = ⟨.Joined, [], false⟩)
    ∧ (∀ e, sigReadStep s (.err e) = ⟨.Error e, [], true⟩)
    ∧ sigReadStep s .close = ⟨.Disconnected, [], true⟩
    ∧ (∀ m : RealtimeMessage, m.event ≠ "phx_reply" ∨ statusIsOk m.payload = false →
      (sigReadStep s (.text (some m))).state = s
      ∧ (sigReadStep s (.text (some m))).exitLoop = false)
    ∧ (sigReadStep s (.text none)).state = s
    ∧ (sigReadStep s (.text none)).exitLoop = false
    ∧ (sigReadStep s .other).state = s
    ∧ (sigReadStep s .other).exitLoop = false := by
  refine ⟨?_, fun e => rfl, rfl, ?_, rfl, rfl, rfl, rfl⟩
  · intro m h1 h2
    obtain ⟨mt, mev, mp, mr⟩ := m
    simp only at h1
    subst h1
    simp [sigReadStep, h2]
  · intro m h
    obtain ⟨mt, mev, mp, mr⟩ := m
    rcases h with h | h
    · simp only at h
      refine ⟨?_, ?_⟩ <;>
      · simp only [sigReadStep]
        split
        · exact (h rfl).elim
        · split
          · split <;> rfl
          · rfl
        · rfl
        · rfl
        · rfl
    · simp only at h
      refine ⟨?_, ?_⟩ <;>
      · simp only [sigReadStep]
        split
        · simp [h]
        · split
          · split <;> rfl
          · rfl
        · rfl
        · rfl
        · rfl

/-- Witness for C5: an ok phx_reply moves any state to Joined, an error
item carries its reason into the Error state along with loop exit, and a
broadcast frame leaves the state untouched. -/
theorem connection_state_machine_witness :
    sigReadStep .Connected (.text (some okReply)) = ⟨.Joined, [], false⟩
    ∧ sigReadStep .Connected (.err "boom") = ⟨.Error "boom", [], true⟩
    ∧ (sigReadStep .Joined (.text (some unknownBroadcast))).state = .Joined := by
  have h := connection_state_machine .Connected
  have h' := connection_state_machine .Joined
  exact ⟨h.1 okReply rfl rfl, h.2.1 "boom",
    (h'.2.2.2.1 unknownBroadcast (Or.inl (by decide))).1⟩

/-- C9: on both read tasks, a text frame whose envelope decode fails, an
envelope with an unrecognized event name, a broadcast with no inner
payload, with an unrecognized or missing inner type, or whose domain
decode fails, all leave the cache and the connection state untouched, emit
nothing, forward nothing, and keep the loop running. -/
theorem read_loops_discard_malformed (now : Instant) (s : ChatLoopState)
    (st : ChannelState) :
    chatReadStep now s (.text none) = ⟨s, [], false⟩
    ∧ (∀ m : RealtimeMessage,
        m.event ≠ "phx_reply" → m.event ≠ "broadcast" →
        m.event ≠ "presence_diff" → m.event ≠ "presence_state" →
        chatReadStep now s (.text (some m)) = ⟨s, [], false⟩)
    ∧ (∀ m : RealtimeMessage, m.event = "broadcast" →
        m.payload.get "payload" = none →
        chatReadStep now s (.text (some m)) = ⟨s, [], false⟩)
    ∧ (∀ (m : RealtimeMessage) (p : Json), m.event = "broadcast" →
        m.payload.get "payload" = some p →
        (p.get "type").bind Json.asStr = none →
        chatReadStep now s (.text (some m)) = ⟨s, [], false⟩)
    ∧ (∀ (m : RealtimeMessage) (p : Json) (t : String), m.event = "broadcast" →
        m.payload.get "payload" = some p →
        (p.get "type").bind Json.asStr = some t →
        t ≠ "chat_message" → t ≠ "presence_change" →
        chatReadStep now s (.text (some m)) = ⟨s, [], false⟩)
    ∧ (∀ (m : RealtimeMessage) (p : Json), m.event = "broadcast" →
        m.payload.get "payload" = some p →
        (p.get "type").bind Json.asStr = some "chat_message" →
        decodeMessage p = none →
        chatReadStep now s (.text (some m)) = ⟨s, [], false⟩)
    ∧ sigReadStep st (.text none) = ⟨st, [], false⟩
    ∧ (∀ m : RealtimeMessage,
        m.event ≠ "phx_reply" → m.event ≠ "broadcast" →
        m.event ≠ "presence_diff" → m.event ≠ "presence_state" →
        sigReadStep st (.text (some m)) = ⟨st, [], false⟩)
    ∧ (∀ (m : RealtimeMessage) (p : Json), m.event = "broadcast" →
        m.payload.get "payload" = some p →
        decodeSignalingMessage p = none →
        sigReadStep st (.text (some m)) = ⟨st, [], false⟩) := by
  refine ⟨rfl, ?_, ?_, ?_, ?_, ?_, rfl, ?_, ?_⟩
  · intro m h1 h2 h3 h4
    obtain ⟨mt, mev, mp, mr⟩ := m
    simp only at h1 h2 h3 h4
    simp only [chatReadStep]
  · intro m h1 h2
    obtain ⟨mt, mev, mp, mr⟩ := m
    simp only at h1 h2
    subst h1
    simp [chatReadStep, h2]
  · intro m p h1 h2 h3
    obtain ⟨mt, mev, mp, mr⟩ := m
    simp only at h1 h2
    subst h1
    simp [chatReadStep, h2, h3]
  · intro m p t h1 h2 h3 h4 h5
    obtain ⟨mt, mev, mp, mr⟩ := m
    simp only at h1 h2
    subst h1
    simp [chatReadStep, h2, h3, h4, h5]
  · intro m p h1 h2 h3 h4
    obtain ⟨mt, mev, mp, mr⟩ := m
    simp only at h1 h2
    subst h1
    simp [chatReadStep, h2, h3, h4]
  · intro m h1 h2 h3 h4
    obtain ⟨mt, mev, mp, mr⟩ := m
    simp only at h1 h2 h3 h4
    simp only [sigReadStep]
  · intro m p h1 h2 h3
    obtain ⟨mt, mev, mp, mr⟩ := m
    simp only at h1 h2
    subst h1
    simp [sigReadStep, h2, h3]

/-- Witness for C9: the broadcast with inner type mystery is discarded by
both read tasks with no effect. -/
theorem read_loops_discard_malformed_witness :
    chatReadStep 0 ⟨true, some PresenceCache.new⟩ (.text (some unknownBroadcast))
      = ⟨⟨true, some PresenceCache.new⟩, [], false⟩
    ∧ sigReadStep .Joined (.text (some unknownBroadcast)) = ⟨.Joined, [], false⟩ := by
  have h := read_loops_discard_malformed 0 ⟨true, some PresenceCache.new⟩ .Joined
  refine ⟨?_, ?_⟩
  · exact h.2.2.2.2.1 unknownBroadcast
      (.obj [("type", .str "mystery"), ("x", .num 1)]) "mystery"
      rfl rfl rfl (by decide) (by decide)
  · exact h.2.2.2.2.2.2.2.2 unknownBroadcast
      (.obj [("type", .str "mystery"), ("x", .num 1)]) rfl rfl rfl

/-- C3: on both clients the first frame handed to the socket is the
phx_join envelope carrying the access token and the channel configuration,
ahead of every queued domain message and heartbeat, for every schedule of
the write loop; the signaling write task then sends the UserJoined
broadcast second. -/
theorem first_frame_is_phx_join (session_id access_token user_id : String)
    (is_host : Bool) (inputs : List SigWriterInput)
    (steps : List (ChatWriterInput × Bool)) :
    (sigWriteTrace session_id access_token user_id is_host inputs).head?
      = some (sigJoinFrame session_id access_token user_id)
    ∧ (sigJoinFrame session_id access_token user_id).event = "phx_join"
    ∧ (sigJoinFrame session_id access_token user_id).payload.get "access_token"
        = some (.str access_token)
    ∧ (sigJoinFrame session_id access_token user_id).payload.get "config"
        = some (.obj [("broadcast", .obj [("self", .bool false)]),
                      ("presence", .obj [("key", .str user_id)])])
    ∧ (sigWriteTrace session_id access_token user_id is_host inputs).tail.head?
        = some (signalingBroadcastFrame ("realtime:session:" ++ session_id)
            (.UserJoined user_id is_host))
    ∧ (chatWriteTrace access_token user_id steps).head?
        = some (chatJoinFrame access_token user_id)
    ∧ (chatJoinFrame access_token user_id).event = "phx_join"
    ∧ (chatJoinFrame access_token user_id).payload.get "access_token"
        = some (.str access_token) := by
  exact ⟨rfl, rfl, rfl, rfl, rfl, rfl, rfl, rfl⟩

/-- C4 counterexample: an empty string access token passes the token check
of both connect paths, so no Auth error is raised for an empty token. -/
theorem empty_token_counterexample :
    joinChannelPrelude (some "") .opened = .ok ""
    ∧ isAuthError (joinChannelPrelude (some "") .opened) = false
    ∧ chatConnectPrelude (some "") .opened = .ok ""
    ∧ isAuthError (chatConnectPrelude (some "") .opened) = false :=
  ⟨rfl, rfl, rfl, rfl⟩

/-- C4 amended: both connect paths fail with an Auth error exactly when
the stored token is absent, and they do so for every transport outcome,
hence before any transport activity; an empty token passes the check; with
a token present a transport open failure maps to a Network error and an
open success proceeds with the token. -/
theorem connect_token_check (tok e : String) (t : TransportResult) :
    joinChannelPrelude none t = .error (.Auth "Not authenticated")
    ∧ joinChannelPrelude (some tok) (.failed e)
        = .error (.Network ("WebSocket connection failed: " ++ e))
    ∧ joinChannelPrelude (some tok) .opened = .ok tok
    ∧ chatConnectPrelude none t = .error (.Auth "Not authenticated")
    ∧ chatConnectPrelude (some tok) (.failed e)
        = .error (.Network ("WebSocket connection failed: " ++ e))
    ∧ chatConnectPrelude (some tok) .opened = .ok tok :=
  ⟨rfl, rfl, rfl, rfl, rfl, rfl⟩

/-- C1 counterexample: after disconnect the send path returns Ok with no
error and nothing enqueued, and a saturated open queue parks the call
inside send instead of returning an error. -/
theorem send_error_claim_counterexample :
    broadcast_message connectedInner.disconnect false [] "c1" sampleMessage
      = .okNoop
    ∧ (broadcast_message connectedInner.disconnect false [] "c1" sampleMessage).isErr
      = false
    ∧ broadcast_message connectedInner false fullQueue "c1" sampleMessage
      = .awaitsCapacity
    ∧ (broadcast_message connectedInner false fullQueue "c1" sampleMessage).isErr
      = false :=
  ⟨rfl, rfl, rfl, rfl⟩

/-- C1 amended: broadcast_message returns Ok without enqueuing when no
sender handle is held, which is the state disconnect leaves behind; with a
sender held it returns a Network error exactly when the receiver side of
the queue is gone; a full queue with a live receiver parks the call inside
send with no error and no enqueue; otherwise the broadcast frame is
appended and the call returns Ok. -/
theorem broadcast_message_behaviour (inner : ChatRealtimeClientInner)
    (rxClosed : Bool) (queue : List RealtimeMessage) (cid : String) (m : Message) :
    (inner.message_tx = false →
      broadcast_message inner rxClosed queue cid m = .okNoop)
    ∧ (inner.message_tx = true → rxClosed = true →
      broadcast_message inner rxClosed queue cid m = .errNetwork)
    ∧ (inner.message_tx = true → rxClosed = false →
      queue.length < outgoingQueueCapacity →
      broadcast_message inner rxClosed queue cid m
        = .okEnqueued (queue ++ [broadcastChatFrame cid m]))
    ∧ (inner.message_tx = true → rxClosed = false →
      ¬queue.length < outgoingQueueCapacity →
      broadcast_message inner rxClosed queue cid m = .awaitsCapacity)
    ∧ inner.disconnect.message_tx = false
    ∧ inner.disconnect.is_connected = false := by
  refine ⟨?_, ?_, ?_, ?_, rfl, rfl⟩
  · intro h1
    simp [broadcast_message, h1]
  · intro h1 h2
    simp [broadcast_message, h1, h2]
  · intro h1 h2 h3
    simp [broadcast_message, h1, h2, h3]
  · intro h1 h2 h3
    simp [broadcast_message, h1, h2, h3]

/-- Witness for C1 amended: with a live queue the frame is enqueued, and
with a dropped receiver the call fails with the Network error. -/
theorem broadcast_message_behaviour_witness :
    broadcast_message connectedInner false [] "c1" sampleMessage
      = .okEnqueued [broadcastChatFrame "c1" sampleMessage]
    ∧ broadcast_message connectedInner true [] "c1" sampleMessage = .errNetwork := by
  have h := broadcast_message_behaviour connectedInner false [] "c1" sampleMessage
  have h' := broadcast_message_behaviour connectedInner true [] "c1" sampleMessage
  exact ⟨h.2.2.1 rfl rfl (by decide), h'.2.1 rfl rfl⟩

end SquadX
